import Mathlib

/-!
Verification of the H9K-Raindrop-MCP resilient client and dispatcher.

The definitions below are a shallow embedding of the TypeScript source:
the retry interceptor, error classification and formatting of
`raindrop-client` (the retry-capable version), the payload-building
client methods, and the MCP tool dispatcher of the server entry point.
HTTP attempts are modelled as an infinite stream of outcomes indexed by
attempt number; JSON payloads as ordered association lists mirroring the
sequential field assignments of the source.
-/

namespace Raindrop

/-- Retry configuration constant `MAX_RETRIES = 3` from the client. -/
def MAX_RETRIES : Nat := 3

/-- Retry configuration constant `RETRY_DELAY_MS = 1000` from the client. -/
def RETRY_DELAY_MS : Nat := 1000

/-- Request timeout constant `REQUEST_TIMEOUT_MS = 30000` from the client. -/
def REQUEST_TIMEOUT_MS : Nat := 30000

/-- An axios-style error: `responseStatus = none` models a network-level
failure with no response object; the two `data` fields model the optional
`errorMessage` / `error` fields of the response body. -/
structure HttpError where
  responseStatus : Option Nat
  dataErrorMessage : Option String
  dataError : Option String
  message : String
deriving DecidableEq, Repr

/-- `isRetryableError` from the client: retryable when there is no
response at all, or the status is 429 or a 5xx. -/
def isRetryableError (e : HttpError) : Bool :=
  match e.responseStatus with
  | none => true
  | some status => status == 429 || (500 ≤ status && status < 600)

/-- JavaScript `a || b` on optional strings: the empty string is falsy. -/
def jsOr (o : Option String) (dflt : String) : String :=
  match o with
  | some s => if s = "" then dflt else s
  | none => dflt

/-- `formatError` from the client: renders a classified single-line
message for each failure kind. -/
def formatError (e : HttpError) : String :=
  match e.responseStatus with
  | none =>
      "Network error: " ++ e.message ++
      ". The Raindrop.io API may be temporarily unavailable. DO NOT RETRY - this is a connectivity issue."
  | some status =>
      if status = 400 then
        "Bad request: " ++ jsOr e.dataErrorMessage (jsOr e.dataError "Invalid parameters provided") ++
        ". Please check the input values and DO NOT RETRY with the same parameters."
      else if status = 401 then
        "Authentication failed: Invalid or expired API token. Please check your RAINDROP_API_TOKEN. DO NOT RETRY - user must fix the token."
      else if status = 403 then
        "Access denied: You do not have permission for this operation. DO NOT RETRY."
      else if status = 404 then
        "Not found: The requested resource does not exist. It may have been deleted. DO NOT RETRY."
      else if status = 429 then
        "Rate limited: Too many requests. The server has already retried. Please inform the user to wait before trying again."
      else if 500 ≤ status then
        "Raindrop.io server error (" ++ toString status ++
        "): The service is temporarily unavailable. Already retried " ++ toString MAX_RETRIES ++ " times."
      else
        "API error (" ++ toString status ++ "): " ++
        jsOr e.dataErrorMessage (jsOr e.dataError e.message) ++ ". DO NOT RETRY."

/-- An axios request config: the immutable request data plus the
`__retryCount` counter the interceptor stashes on the config object. -/
structure RequestConfig where
  method : String
  path : String
  body : String
  headers : List (String × String)
  retryCount : Nat
deriving DecidableEq, Repr

/-- Outcome of one HTTP attempt: the server answered successfully with a
value, or the attempt failed with an axios error. -/
inductive AttemptOutcome (α : Type) where
  | success (a : α)
  | failure (e : HttpError)
deriving DecidableEq, Repr

/-- The response interceptor's retry loop. `outcomes n` is the outcome of
the `(n+1)`-th HTTP attempt; `cfg` is the request config (carrying the
`__retryCount` counter), `idx` the index of the current attempt. Returns
the final result (success value or formatted error message) together with
the retry trace: for each retry fired, the backoff delay waited before it
and the config it was issued with. Terminates for every outcome stream
because each retry strictly increases `retryCount`, which is checked
against `MAX_RETRIES`. -/
def runRequestFrom {α : Type} (outcomes : Nat → AttemptOutcome α)
    (cfg : RequestConfig) (idx : Nat) :
    Except String α × List (Nat × RequestConfig) :=
  match outcomes idx with
  | AttemptOutcome.success a => (Except.ok a, [])
  | AttemptOutcome.failure e =>
      if h : cfg.retryCount < MAX_RETRIES ∧ isRetryableError e = true then
        let d := RETRY_DELAY_MS * 2 ^ cfg.retryCount
        let cfg' := { cfg with retryCount := cfg.retryCount + 1 }
        let r := runRequestFrom outcomes cfg' (idx + 1)
        (r.1, (d, cfg') :: r.2)
      else
        (Except.error (formatError e), [])
termination_by MAX_RETRIES - cfg.retryCount
decreasing_by
  simp_wf
  omega

/-- A fresh request config with the interceptor's counter unset
(`__retryCount` starts at 0 via the `|| 0` default). -/
def freshConfig (method path body : String) (headers : List (String × String)) :
    RequestConfig :=
  { method := method, path := path, body := body, headers := headers, retryCount := 0 }

/-- A JSON value, as assembled into outgoing request bodies. -/
inductive JsonValue where
  | str (s : String)
  | num (n : Int)
  | jbool (b : Bool)
  | arr (xs : List JsonValue)
  | obj (fields : List (String × JsonValue))

/-- One `if (x !== undefined) data.key = v` assignment: the field is
appended exactly when the optional value is present. -/
def setIfSome (key : String) (v : Option JsonValue) : List (String × JsonValue) :=
  match v with
  | some j => [(key, j)]
  | none => []

/-- Field lookup in an assembled payload (first occurrence). -/
def getField (key : String) : List (String × JsonValue) → Option JsonValue
  | [] => none
  | (k, v) :: rest => if k = key then some v else getField key rest

/-- `UpdateRaindropParams` from the client: every field optional;
`none` models an absent (`undefined`) field. -/
structure UpdateRaindropParams where
  title : Option String
  excerpt : Option String
  note : Option String
  tags : Option (List String)
  collectionId : Option Int
  important : Option Bool
deriving DecidableEq, Repr

/-- The payload `updateRaindrop` assembles: one `!== undefined` guard per
field, in source order, with `collectionId` wrapped as a nested
collection reference. -/
def updateRaindropData (p : UpdateRaindropParams) : List (String × JsonValue) :=
  setIfSome "title" (p.title.map JsonValue.str) ++
  setIfSome "excerpt" (p.excerpt.map JsonValue.str) ++
  setIfSome "note" (p.note.map JsonValue.str) ++
  setIfSome "tags" (p.tags.map (fun ts => JsonValue.arr (ts.map JsonValue.str))) ++
  setIfSome "important" (p.important.map JsonValue.jbool) ++
  setIfSome "collection" (p.collectionId.map (fun v => JsonValue.obj [("$id", JsonValue.num v)]))

/-- `UpdateCollectionParams` from the client. -/
structure UpdateCollectionParams where
  title : Option String
  description : Option String
  public : Option Bool
  view : Option String
  parent : Option Int
deriving DecidableEq, Repr

/-- The payload `updateCollection` assembles: one `!== undefined` guard
per field, in source order, with `parent` wrapped as a nested reference. -/
def updateCollectionData (p : UpdateCollectionParams) : List (String × JsonValue) :=
  setIfSome "title" (p.title.map JsonValue.str) ++
  setIfSome "description" (p.description.map JsonValue.str) ++
  setIfSome "public" (p.public.map JsonValue.jbool) ++
  setIfSome "view" (p.view.map JsonValue.str) ++
  setIfSome "parent" (p.parent.map (fun pid => JsonValue.obj [("$id", JsonValue.num pid)]))

/-- `CreateRaindropParams` from the client: `link` required, the rest
optional. -/
structure CreateRaindropParams where
  link : String
  title : Option String
  excerpt : Option String
  note : Option String
  tags : Option (List String)
  collectionId : Option Int
  important : Option Bool
deriving DecidableEq, Repr

/-- The payload `createRaindrop` assembles: `link` and the `pleaseParse`
auto-parse signal always; `title`, `excerpt`, `note` under JavaScript
truthiness (`if (params.title)`, so an explicit empty string is
dropped); `tags` whenever the array is present (arrays are always
truthy); `important` under `!== undefined`; and the collection reference
only when `params.collectionId || 0` is non-zero. -/
def createRaindropData (p : CreateRaindropParams) : List (String × JsonValue) :=
  [("link", JsonValue.str p.link), ("pleaseParse", JsonValue.obj [])] ++
  (match p.title with
   | some t => if t = "" then [] else [("title", JsonValue.str t)]
   | none => []) ++
  (match p.excerpt with
   | some t => if t = "" then [] else [("excerpt", JsonValue.str t)]
   | none => []) ++
  (match p.note with
   | some t => if t = "" then [] else [("note", JsonValue.str t)]
   | none => []) ++
  (match p.tags with
   | some ts => [("tags", JsonValue.arr (ts.map JsonValue.str))]
   | none => []) ++
  setIfSome "important" (p.important.map JsonValue.jbool) ++
  (let collectionId := p.collectionId.getD 0
   if collectionId ≠ 0 then [("collection", JsonValue.obj [("$id", JsonValue.num collectionId)])]
   else [])

/-- `CreateCollectionParams` from the client: `title` required. -/
structure CreateCollectionParams where
  title : String
  description : Option String
  public : Option Bool
  view : Option String
  parent : Option Int
deriving DecidableEq, Repr

/-- The payload `createCollection` assembles: `title` always; `description`
and `view` under JavaScript truthiness (empty string dropped); `public`
under `!== undefined`; `parent` under truthiness (`if (params.parent)`,
so an explicit parent id 0 is dropped). -/
def createCollectionData (p : CreateCollectionParams) : List (String × JsonValue) :=
  [("title", JsonValue.str p.title)] ++
  (match p.description with
   | some d => if d = "" then [] else [("description", JsonValue.str d)]
   | none => []) ++
  setIfSome "public" (p.public.map JsonValue.jbool) ++
  (match p.view with
   | some v => if v = "" then [] else [("view", JsonValue.str v)]
   | none => []) ++
  (match p.parent with
   | some pid => if pid = 0 then [] else [("parent", JsonValue.obj [("$id", JsonValue.num pid)])]
   | none => [])

/-- C4: the payloads of the partial-update operations contain exactly
the fields explicitly present in the input: looking up each field of the
outgoing object yields precisely the (wrapped) input value when present
— including explicit 0, false, empty string and empty array — and
nothing when absent; the key list of the payload is exactly the list of
present fields; and a present `collectionId` (including 0) is forwarded
as a nested collection reference. -/
theorem update_payloads_exact :
    (∀ p : UpdateRaindropParams,
      getField "title" (updateRaindropData p) = p.title.map JsonValue.str ∧
      getField "excerpt" (updateRaindropData p) = p.excerpt.map JsonValue.str ∧
      getField "note" (updateRaindropData p) = p.note.map JsonValue.str ∧
      getField "tags" (updateRaindropData p) =
        p.tags.map (fun ts => JsonValue.arr (ts.map JsonValue.str)) ∧
      getField "important" (updateRaindropData p) = p.important.map JsonValue.jbool ∧
      getField "collection" (updateRaindropData p) =
        p.collectionId.map (fun v => JsonValue.obj [("$id", JsonValue.num v)]) ∧
      (updateRaindropData p).map Prod.fst =
        (if p.title.isSome then ["title"] else []) ++
        (if p.excerpt.isSome then ["excerpt"] else []) ++
        (if p.note.isSome then ["note"] else []) ++
        (if p.tags.isSome then ["tags"] else []) ++
        (if p.important.isSome then ["important"] else []) ++
        (if p.collectionId.isSome then ["collection"] else [])) ∧
    (∀ q : UpdateCollectionParams,
      getField "title" (updateCollectionData q) = q.title.map JsonValue.str ∧
      getField "description" (updateCollectionData q) = q.description.map JsonValue.str ∧
      getField "public" (updateCollectionData q) = q.public.map JsonValue.jbool ∧
      getField "view" (updateCollectionData q) = q.view.map JsonValue.str ∧
      getField "parent" (updateCollectionData q) =
        q.parent.map (fun pid => JsonValue.obj [("$id", JsonValue.num pid)]) ∧
      (updateCollectionData q).map Prod.fst =
        (if q.title.isSome then ["title"] else []) ++
        (if q.description.isSome then ["description"] else []) ++
        (if q.public.isSome then ["public"] else []) ++
        (if q.view.isSome then ["view"] else []) ++
        (if q.parent.isSome then ["parent"] else [])) := by
  constructor
  · rintro ⟨t, e, n, tg, c, i⟩
    cases t <;> cases e <;> cases n <;> cases tg <;> cases c <;> cases i <;>
      simp [updateRaindropData, setIfSome, getField]
  · rintro ⟨t, d, pb, v, pa⟩
    cases t <;> cases d <;> cases pb <;> cases v <;> cases pa <;>
      simp [updateCollectionData, setIfSome, getField]

/-- C5: the `createBookmark` payload always carries the link and the
`pleaseParse` auto-parse signal; the collection reference is omitted
when `collectionId` is 0 or absent and otherwise sent as a nested
`$id` object, for every non-zero integer id including -1. -/
theorem create_bookmark_payload (p : CreateRaindropParams) :
    getField "link" (createRaindropData p) = some (JsonValue.str p.link) ∧
    getField "pleaseParse" (createRaindropData p) = some (JsonValue.obj []) ∧
    getField "collection" (createRaindropData p) =
      (match p.collectionId with
       | none => none
       | some v =>
           if v = 0 then none else some (JsonValue.obj [("$id", JsonValue.num v)])) := by
  obtain ⟨l, t, e, n, tg, c, i⟩ := p
  cases t <;> cases e <;> cases n <;> cases tg <;> cases c <;> cases i <;>
    simp [createRaindropData, setIfSome, getField] <;>
    split_ifs <;> simp_all [getField]

/-- C10: `createCollection` silently drops explicitly provided falsy
optional fields — an empty description, an empty view string and a
parent id of 0 are omitted from the payload, while an explicit
`public: false` is kept — so a collection under parent 0 or with an
explicitly empty description cannot be expressed at create time, unlike
`updateCollection`, which forwards every field that is present. -/
theorem create_collection_drops_falsy :
    (∀ p : CreateCollectionParams,
      getField "description" (createCollectionData p) =
        (match p.description with
         | none => none
         | some d => if d = "" then none else some (JsonValue.str d)) ∧
      getField "view" (createCollectionData p) =
        (match p.view with
         | none => none
         | some v => if v = "" then none else some (JsonValue.str v)) ∧
      getField "parent" (createCollectionData p) =
        (match p.parent with
         | none => none
         | some pid =>
             if pid = 0 then none
             else some (JsonValue.obj [("$id", JsonValue.num pid)])) ∧
      getField "public" (createCollectionData p) = p.public.map JsonValue.jbool) ∧
    createCollectionData ⟨"Inbox", some "", some false, some "", some 0⟩ =
      [("title", JsonValue.str "Inbox"), ("public", JsonValue.jbool false)] ∧
    (∀ q : UpdateCollectionParams,
      getField "description" (updateCollectionData q) = q.description.map JsonValue.str ∧
      getField "view" (updateCollectionData q) = q.view.map JsonValue.str ∧
      getField "parent" (updateCollectionData q) =
        q.parent.map (fun pid => JsonValue.obj [("$id", JsonValue.num pid)])) := by
  refine ⟨?_, rfl, ?_⟩
  · rintro ⟨ti, d, pb, v, pa⟩
    cases d <;> cases pb <;> cases v <;> cases pa <;>
      simp [createCollectionData, setIfSome, getField] <;>
      split_ifs <;> simp_all [getField]
  · rintro ⟨t, d, pb, v, pa⟩
    cases t <;> cases d <;> cases pb <;> cases v <;> cases pa <;>
      simp [updateCollectionData, setIfSome, getField]

/-- `SearchParams` from the client (the `searchRaindrops` filter). -/
structure SearchParams where
  collectionId : Option Int
  search : Option String
  sort : Option String
  perpage : Option Int
  page : Option Int
  tag : Option (List String)
deriving DecidableEq, Repr

/-- The HTTP request `searchRaindrops` issues: target path and query
parameter object. -/
structure SearchRequest where
  path : String
  queryParams : List (String × JsonValue)

/-- The request assembled by `searchRaindrops`: the path interpolates
`params.collectionId || 0`, and each filter field is added to the query
object under a JavaScript truthiness guard (`if (params.search)` etc.),
with `tag` also requiring a non-empty array. -/
def searchRaindropsRequest (p : SearchParams) : SearchRequest :=
  let collectionId : Int :=
    match p.collectionId with
    | some v => if v = 0 then 0 else v
    | none => 0
  let queryParams :=
    (match p.search with
     | some s => if s = "" then [] else [("search", JsonValue.str s)]
     | none => []) ++
    (match p.sort with
     | some s => if s = "" then [] else [("sort", JsonValue.str s)]
     | none => []) ++
    (match p.perpage with
     | some v => if v = 0 then [] else [("perpage", JsonValue.num v)]
     | none => []) ++
    (match p.page with
     | some v => if v = 0 then [] else [("page", JsonValue.num v)]
     | none => []) ++
    (match p.tag with
     | some ts => if ts.length > 0 then [("tag", JsonValue.arr (ts.map JsonValue.str))] else []
     | none => [])
  { path := "/raindrops/" ++ toString collectionId, queryParams := queryParams }

/-- Counterexample to C6: an explicitly provided `page = 0` yields
exactly the same request as an omitted `page` — the query object has no
`page` entry — so an omitted field *is* confused with an explicit zero. -/
theorem search_page_zero_confused_with_omitted :
    searchRaindropsRequest ⟨none, none, none, none, some 0, none⟩ =
      searchRaindropsRequest ⟨none, none, none, none, none, none⟩ ∧
    (⟨none, none, none, none, some 0, none⟩ : SearchParams) ≠
      ⟨none, none, none, none, none, none⟩ ∧
    getField "page" (searchRaindropsRequest ⟨none, none, none, none, some 0, none⟩).queryParams =
      none := by
  refine ⟨rfl, by decide, rfl⟩

set_option maxHeartbeats 2000000 in
/-- C6 amended: the request path targets collection 0 when no scope is
given (and -1 for scope -1, via `getD`), and exactly the truthy filter
fields become query parameters: a present empty string, zero page, zero
page size or empty tag list is dropped exactly like an omitted field. -/
theorem search_request_truthy_fields (p : SearchParams) :
    (searchRaindropsRequest p).path = "/raindrops/" ++ toString (p.collectionId.getD 0) ∧
    getField "search" (searchRaindropsRequest p).queryParams =
      (match p.search with
       | none => none
       | some s => if s = "" then none else some (JsonValue.str s)) ∧
    getField "sort" (searchRaindropsRequest p).queryParams =
      (match p.sort with
       | none => none
       | some s => if s = "" then none else some (JsonValue.str s)) ∧
    getField "perpage" (searchRaindropsRequest p).queryParams =
      (match p.perpage with
       | none => none
       | some v => if v = 0 then none else some (JsonValue.num v)) ∧
    getField "page" (searchRaindropsRequest p).queryParams =
      (match p.page with
       | none => none
       | some v => if v = 0 then none else some (JsonValue.num v)) ∧
    getField "tag" (searchRaindropsRequest p).queryParams =
      (match p.tag with
       | none => none
       | some ts =>
           if ts.length = 0 then none else some (JsonValue.arr (ts.map JsonValue.str))) ∧
    ((searchRaindropsRequest p).queryParams).map Prod.fst =
      (if p.search.getD "" ≠ "" then ["search"] else []) ++
      (if p.sort.getD "" ≠ "" then ["sort"] else []) ++
      (if p.perpage.getD 0 ≠ 0 then ["perpage"] else []) ++
      (if p.page.getD 0 ≠ 0 then ["page"] else []) ++
      (if (p.tag.getD []).length ≠ 0 then ["tag"] else []) := by
  obtain ⟨c, s, so, pp, pg, tg⟩ := p
  refine ⟨?_, ?_⟩
  · cases c with
    | none => simp [searchRaindropsRequest]
    | some v =>
        simp only [searchRaindropsRequest, Option.getD_some]
        split_ifs <;> simp_all
  · cases s <;> cases so <;> cases pp <;> cases pg <;> cases tg <;>
      simp [searchRaindropsRequest, getField] <;>
      split_ifs <;> simp_all [getField]

/-- A content block of a tool response (always `type: "text"` here). -/
structure ContentBlock where
  type : String
  text : String
deriving DecidableEq, Repr

/-- The MCP tool response envelope: content blocks plus the error flag
(absent in the source on success, modelled as `false`). -/
structure ToolResponse where
  content : List ContentBlock
  isError : Bool
deriving DecidableEq, Repr

/-- The 14 registered tool names, in declaration order; they coincide
with the case labels of the dispatch switch. -/
def toolNames : List String :=
  ["search_bookmarks", "get_bookmark", "create_bookmark", "update_bookmark",
   "delete_bookmark", "list_collections", "get_collection", "create_collection",
   "update_collection", "delete_collection", "list_tags", "rename_tag",
   "delete_tag", "get_user_info"]

/-- The CallTool request handler. The outcome of the matching client
operation is abstracted as `result`: `Except.ok` carries the rendered
success text (serialized JSON or a confirmation line), `Except.error`
the message of the error thrown by the Resilient Client. When the
shutdown flag is set, or the name matches no case label, the handler
answers without invoking any operation, so `result` is ignored there. -/
def dispatchCall (isShuttingDown : Bool) (name : String)
    (result : Except String String) : ToolResponse :=
  if isShuttingDown then
    { content := [⟨"text",
        "Error: Server is shutting down. Please wait and try again. DO NOT RETRY immediately."⟩],
      isError := true }
  else if name ∈ toolNames then
    match result with
    | Except.ok txt => { content := [⟨"text", txt⟩], isError := false }
    | Except.error msg => { content := [⟨"text", "Error: " ++ msg⟩], isError := true }
  else
    { content := [⟨"text",
        "Unknown tool: " ++ name ++ ". Available tools: " ++
        String.intercalate ", " toolNames ++ ". DO NOT RETRY with the same tool name."⟩],
      isError := true }

/-- The ListTools request handler: throws when the shutdown flag is set,
otherwise returns the static catalogue (modelled by its names). -/
def handleListTools (isShuttingDown : Bool) : Except String (List String) :=
  if isShuttingDown then
    Except.error "Server is shutting down. Please wait and try again."
  else Except.ok toolNames

/-- Observable effect of the `shutdown` signal handler: it sets the
shutdown flag and schedules process exit after a fixed grace window. -/
structure ShutdownEffect where
  setsShuttingDown : Bool
  exitDelayMs : Nat
deriving DecidableEq, Repr

/-- The `shutdown` routine from the server entry point: flag set, exit
scheduled 5000 ms later. -/
def shutdown : ShutdownEffect :=
  { setsShuttingDown := true, exitDelayMs := 5000 }

/-- Counterexample to C7: the text block the dispatcher emits for a
failed operation is `"Error: " ++ msg`, not the classified message
itself — here at a concrete 401 failure of `get_bookmark`. -/
theorem dispatch_error_text_has_error_head :
    (dispatchCall false "get_bookmark"
      (Except.error (formatError ⟨some 401, none, none, "unauthorized"⟩))).content =
      [⟨"text", "Error: " ++ formatError ⟨some 401, none, none, "unauthorized"⟩⟩] ∧
    "Error: " ++ formatError ⟨some 401, none, none, "unauthorized"⟩ ≠
      formatError ⟨some 401, none, none, "unauthorized"⟩ := by
  refine ⟨rfl, ?_⟩
  decide

/-- C7 amended: for every registered tool, a failing Resilient Client
operation is caught and turned into an error-flagged response whose
single text block is `"Error: "` followed by the classified message,
forwarded verbatim — the dispatcher never re-interprets status codes,
and the failure never escapes the handler. -/
theorem dispatch_forwards_classified_error (name : String) (hname : name ∈ toolNames)
    (msg : String) :
    dispatchCall false name (Except.error msg) =
      { content := [⟨"text", "Error: " ++ msg⟩], isError := true } := by
  simp [dispatchCall, hname]

/-- Witness for C7 at a concrete network failure of `search_bookmarks`. -/
theorem dispatch_forwards_classified_error_witness :
    dispatchCall false "search_bookmarks"
      (Except.error (formatError ⟨none, none, none, "timeout"⟩)) =
      { content := [⟨"text", "Error: " ++ formatError ⟨none, none, none, "timeout"⟩⟩],
        isError := true } :=
  dispatch_forwards_classified_error "search_bookmarks" (by decide) _

/-- C8: a call request for a name outside the 14 registered tools is
answered (never thrown) with an error-flagged response whose text lists
the name, all 14 valid tool names (pairwise distinct) and the
instruction not to retry with the same name; the response does not
depend on any operation outcome, so no remote call is made. -/
theorem unknown_tool_reported (name : String) (h : name ∉ toolNames)
    (r r' : Except String String) :
    dispatchCall false name r =
      { content := [⟨"text",
          "Unknown tool: " ++ name ++ ". Available tools: " ++
          String.intercalate ", " toolNames ++ ". DO NOT RETRY with the same tool name."⟩],
        isError := true } ∧
    dispatchCall false name r = dispatchCall false name r' ∧
    toolNames.length = 14 ∧ toolNames.Nodup := by
  have hr : ∀ r'' : Except String String,
      dispatchCall false name r'' =
        { content := [⟨"text",
            "Unknown tool: " ++ name ++ ". Available tools: " ++
            String.intercalate ", " toolNames ++ ". DO NOT RETRY with the same tool name."⟩],
          isError := true } := by
    intro r''
    simp [dispatchCall, h]
  exact ⟨hr r, (hr r).trans (hr r').symm, rfl, by decide⟩

/-- Witness for C8 at a concrete unregistered name. -/
theorem unknown_tool_reported_witness :
    dispatchCall false "export_bookmarks" (Except.ok "unused") =
      { content := [⟨"text",
          "Unknown tool: " ++ "export_bookmarks" ++ ". Available tools: " ++
          String.intercalate ", " toolNames ++ ". DO NOT RETRY with the same tool name."⟩],
        isError := true } ∧
    dispatchCall false "export_bookmarks" (Except.ok "unused") =
      dispatchCall false "export_bookmarks" (Except.error "unused") ∧
    toolNames.length = 14 ∧ toolNames.Nodup :=
  unknown_tool_reported "export_bookmarks" (by decide) (Except.ok "unused")
    (Except.error "unused")

/-- C9: with the shutdown flag set, every call request is answered with
the fixed error-flagged drain response telling the caller not to retry
immediately, independently of any operation outcome (so no Resilient
Client operation is invoked); every list request fails outright; and
the shutdown routine sets the flag and schedules process exit at the
end of a 5000 ms grace window. -/
theorem shutting_down_behavior (name : String) (r r' : Except String String) :
    dispatchCall true name r =
      { content := [⟨"text",
          "Error: Server is shutting down. Please wait and try again. DO NOT RETRY immediately."⟩],
        isError := true } ∧
    dispatchCall true name r = dispatchCall true name r' ∧
    handleListTools true =
      Except.error "Server is shutting down. Please wait and try again." ∧
    shutdown.setsShuttingDown = true ∧ shutdown.exitDelayMs = 5000 :=
  ⟨rfl, rfl, rfl, rfl, rfl⟩

/-- Unfolding lemma: a successful attempt ends the loop with its value
and an empty retry trace. -/
theorem runRequestFrom_success {α : Type} {outcomes : Nat → AttemptOutcome α}
    {idx : Nat} {a : α} (cfg : RequestConfig)
    (h : outcomes idx = AttemptOutcome.success a) :
    runRequestFrom outcomes cfg idx = (Except.ok a, []) := by
  rw [runRequestFrom.eq_def, h]

/-- Unfolding lemma: a retryable failure under budget fires one retry
with backoff `RETRY_DELAY_MS * 2 ^ retryCount` and the counter bumped. -/
theorem runRequestFrom_retry {α : Type} {outcomes : Nat → AttemptOutcome α}
    {idx : Nat} {e : HttpError} (cfg : RequestConfig)
    (h : outcomes idx = AttemptOutcome.failure e)
    (hrc : cfg.retryCount < MAX_RETRIES) (hre : isRetryableError e = true) :
    runRequestFrom outcomes cfg idx =
      ((runRequestFrom outcomes { cfg with retryCount := cfg.retryCount + 1 } (idx + 1)).1,
       (RETRY_DELAY_MS * 2 ^ cfg.retryCount, { cfg with retryCount := cfg.retryCount + 1 }) ::
         (runRequestFrom outcomes { cfg with retryCount := cfg.retryCount + 1 } (idx + 1)).2) := by
  rw [runRequestFrom.eq_def, h]
  exact dif_pos ⟨hrc, hre⟩

/-- Unfolding lemma: a failure that is terminal, or arrives with the
budget exhausted, ends the loop immediately with the formatted error. -/
theorem runRequestFrom_terminal {α : Type} {outcomes : Nat → AttemptOutcome α}
    {idx : Nat} {e : HttpError} (cfg : RequestConfig)
    (h : outcomes idx = AttemptOutcome.failure e)
    (hcond : ¬(cfg.retryCount < MAX_RETRIES ∧ isRetryableError e = true)) :
    runRequestFrom outcomes cfg idx = (Except.error (formatError e), []) := by
  rw [runRequestFrom.eq_def, h]
  exact dif_neg hcond

/-- C1: if the first N attempts fail retryably (N ≤ 3) and attempt N+1
succeeds, the operation returns the success; exactly N retries fire, the
n-th of them (n = 0, 1, 2) after a delay of `1000 * 2^n` ms, and each
retry reuses the original request config (method, path, body, headers
unchanged — only the stashed retry counter is bumped). -/
theorem retry_succeeds_after_retryable_failures {α : Type}
    (N : Nat) (hN : N ≤ 3) (es : Nat → HttpError) (a : α)
    (outcomes : Nat → AttemptOutcome α)
    (hret : ∀ n, n < N → isRetryableError (es n) = true)
    (hfail : ∀ n, n < N → outcomes n = AttemptOutcome.failure (es n))
    (hsucc : outcomes N = AttemptOutcome.success a)
    (cfg : RequestConfig) (hcfg : cfg.retryCount = 0) :
    runRequestFrom outcomes cfg 0 =
      (Except.ok a,
       (List.range N).map (fun n =>
         (RETRY_DELAY_MS * 2 ^ n, { cfg with retryCount := n + 1 }))) := by
  interval_cases N
  · rw [runRequestFrom_success cfg hsucc]
    simp
  · rw [runRequestFrom_retry cfg (hfail 0 (by omega)) (by simp [hcfg, MAX_RETRIES])
        (hret 0 (by omega))]
    rw [runRequestFrom_success _ (by simpa [hcfg] using hsucc)]
    simp [hcfg, List.range_succ]
  · rw [runRequestFrom_retry cfg (hfail 0 (by omega)) (by simp [hcfg, MAX_RETRIES])
        (hret 0 (by omega))]
    rw [runRequestFrom_retry _ (hfail 1 (by omega)) (by simp [hcfg, MAX_RETRIES])
        (hret 1 (by omega))]
    rw [runRequestFrom_success _ (by simpa [hcfg] using hsucc)]
    simp [hcfg, List.range_succ]
  · rw [runRequestFrom_retry cfg (hfail 0 (by omega)) (by simp [hcfg, MAX_RETRIES])
        (hret 0 (by omega))]
    rw [runRequestFrom_retry _ (hfail 1 (by omega)) (by simp [hcfg, MAX_RETRIES])
        (hret 1 (by omega))]
    rw [runRequestFrom_retry _ (hfail 2 (by omega)) (by simp [hcfg, MAX_RETRIES])
        (hret 2 (by omega))]
    rw [runRequestFrom_success _ (by simpa [hcfg] using hsucc)]
    simp [hcfg, List.range_succ]

/-- Witness for C1 at a concrete stream: two 503 failures then success. -/
theorem retry_succeeds_after_retryable_failures_witness :
    runRequestFrom
      (fun n => if n < 2 then AttemptOutcome.failure ⟨some 503, none, none, "boom"⟩
        else AttemptOutcome.success (7 : Nat))
      (freshConfig "GET" "/raindrop/1" "" [("Authorization", "Bearer t")]) 0 =
      (Except.ok 7,
       (List.range 2).map (fun n =>
         (RETRY_DELAY_MS * 2 ^ n,
          { freshConfig "GET" "/raindrop/1" "" [("Authorization", "Bearer t")] with
              retryCount := n + 1 }))) :=
  retry_succeeds_after_retryable_failures 2 (by decide)
    (fun _ => ⟨some 503, none, none, "boom"⟩) 7 _
    (by decide) (by decide) (by decide) _ rfl

/-- C2: if the first four attempts all fail retryably, the operation
makes exactly 3 retries (4 total attempts), with counters 1, 2, 3 and
delays 1000, 2000, 4000 ms, and then fails with the classified error of
the fourth failure; the result does not depend on any outcome beyond the
fourth attempt, so a fifth attempt is never made. -/
theorem retry_budget_exhausted {α : Type} (es : Nat → HttpError)
    (outcomes outcomes' : Nat → AttemptOutcome α)
    (hret : ∀ n, n < 4 → isRetryableError (es n) = true)
    (hfail : ∀ n, n < 4 → outcomes n = AttemptOutcome.failure (es n))
    (hagree : ∀ n, n < 4 → outcomes' n = outcomes n)
    (cfg : RequestConfig) (hcfg : cfg.retryCount = 0) :
    runRequestFrom outcomes cfg 0 =
      (Except.error (formatError (es 3)),
       [(1000, { cfg with retryCount := 1 }), (2000, { cfg with retryCount := 2 }),
        (4000, { cfg with retryCount := 3 })]) ∧
    runRequestFrom outcomes' cfg 0 = runRequestFrom outcomes cfg 0 := by
  have run : ∀ oc : Nat → AttemptOutcome α, (∀ n, n < 4 → oc n = outcomes n) →
      runRequestFrom oc cfg 0 =
        (Except.error (formatError (es 3)),
         [(1000, { cfg with retryCount := 1 }), (2000, { cfg with retryCount := 2 }),
          (4000, { cfg with retryCount := 3 })]) := by
    intro oc hoc
    rw [runRequestFrom_retry cfg ((hoc 0 (by omega)).trans (hfail 0 (by omega)))
        (by simp [hcfg, MAX_RETRIES]) (hret 0 (by omega))]
    rw [runRequestFrom_retry _ ((hoc 1 (by omega)).trans (hfail 1 (by omega)))
        (by simp [hcfg, MAX_RETRIES]) (hret 1 (by omega))]
    rw [runRequestFrom_retry _ ((hoc 2 (by omega)).trans (hfail 2 (by omega)))
        (by simp [hcfg, MAX_RETRIES]) (hret 2 (by omega))]
    rw [runRequestFrom_terminal _ ((hoc 3 (by omega)).trans (hfail 3 (by omega)))
        (by simp [hcfg, MAX_RETRIES])]
    simp [hcfg, RETRY_DELAY_MS]
  exact ⟨run outcomes (fun _ _ => rfl),
    (run outcomes' hagree).trans (run outcomes (fun _ _ => rfl)).symm⟩

/-- Witness for C2: a stream of endless 500 failures, compared with one
that swaps in a success at the fifth attempt (never reached). -/
theorem retry_budget_exhausted_witness :
    runRequestFrom
      ((fun _ => AttemptOutcome.failure ⟨some 500, none, none, "down"⟩) :
        Nat → AttemptOutcome Nat)
      (freshConfig "GET" "/collections" "" []) 0 =
      (Except.error (formatError ⟨some 500, none, none, "down"⟩),
       [(1000, { freshConfig "GET" "/collections" "" [] with retryCount := 1 }),
        (2000, { freshConfig "GET" "/collections" "" [] with retryCount := 2 }),
        (4000, { freshConfig "GET" "/collections" "" [] with retryCount := 3 })]) ∧
    runRequestFrom
      (fun n => if n < 4 then AttemptOutcome.failure ⟨some 500, none, none, "down"⟩
        else AttemptOutcome.success (0 : Nat))
      (freshConfig "GET" "/collections" "" []) 0 =
    runRequestFrom
      ((fun _ => AttemptOutcome.failure ⟨some 500, none, none, "down"⟩) :
        Nat → AttemptOutcome Nat)
      (freshConfig "GET" "/collections" "" []) 0 :=
  retry_budget_exhausted (fun _ => ⟨some 500, none, none, "down"⟩) _ _
    (by decide) (by decide) (by decide) _ rfl

/-- C3: a failed attempt is retryable exactly when no response was
received or the status is 429 or in [500, 599]; statuses 400, 401, 403
and 404 are terminal, and any terminal first failure ends the operation
immediately with its classified error and an empty retry trace,
whatever the remaining retry budget is. -/
theorem retryable_classification {α : Type} (e : HttpError)
    (outcomes : Nat → AttemptOutcome α) (cfg : RequestConfig)
    (hterm : isRetryableError e = false)
    (h0 : outcomes 0 = AttemptOutcome.failure e) :
    (∀ e' : HttpError, isRetryableError e' = true ↔
      e'.responseStatus = none ∨
        ∃ s, e'.responseStatus = some s ∧ (s = 429 ∨ (500 ≤ s ∧ s ≤ 599))) ∧
    (∀ s d1 d2 m, (s = 400 ∨ s = 401 ∨ s = 403 ∨ s = 404) →
      isRetryableError ⟨some s, d1, d2, m⟩ = false) ∧
    runRequestFrom outcomes cfg 0 = (Except.error (formatError e), []) := by
  refine ⟨?_, ?_, ?_⟩
  · intro e'
    match e' with
    | ⟨none, d1, d2, m⟩ => simp [isRetryableError]
    | ⟨some s, d1, d2, m⟩ =>
        simp only [isRetryableError, Bool.or_eq_true, beq_iff_eq, Bool.and_eq_true,
          decide_eq_true_eq, Option.some.injEq]
        constructor
        · rintro (rfl | ⟨h1, h2⟩)
          · exact Or.inr ⟨429, rfl, Or.inl rfl⟩
          · exact Or.inr ⟨s, rfl, Or.inr ⟨h1, by omega⟩⟩
        · rintro (h | ⟨s', rfl, (rfl | ⟨h1, h2⟩)⟩)
          · exact absurd h (by simp)
          · exact Or.inl rfl
          · exact Or.inr ⟨h1, by omega⟩
  · rintro s d1 d2 m (rfl | rfl | rfl | rfl) <;> simp [isRetryableError]
  · exact runRequestFrom_terminal cfg h0 (by simp [hterm])

/-- Witness for C3 at a concrete 404 failure. -/
theorem retryable_classification_witness :
    (∀ e' : HttpError, isRetryableError e' = true ↔
      e'.responseStatus = none ∨
        ∃ s, e'.responseStatus = some s ∧ (s = 429 ∨ (500 ≤ s ∧ s ≤ 599))) ∧
    (∀ s d1 d2 m, (s = 400 ∨ s = 401 ∨ s = 403 ∨ s = 404) →
      isRetryableError ⟨some s, d1, d2, m⟩ = false) ∧
    runRequestFrom
      ((fun _ => AttemptOutcome.failure ⟨some 404, none, none, "gone"⟩) :
        Nat → AttemptOutcome Nat)
      (freshConfig "GET" "/raindrop/9" "" []) 0 =
      (Except.error (formatError ⟨some 404, none, none, "gone"⟩), []) :=
  retryable_classification (α := Nat) ⟨some 404, none, none, "gone"⟩ _
    (freshConfig "GET" "/raindrop/9" "" []) (by decide) rfl

end Raindrop
